import Mathlib

/-!
A shallow embedding of the console contact-book bot (`home_work_3.py`)
together with proofs about its behaviour.

Conventions of the embedding:
* Python `datetime.date` values are `Date` records; the proleptic-Gregorian
  ordinal (`date.toordinal`) is `toOrdinal`, and `date(1,1,1)` is a Monday,
  so `strftime "%A"` is `weekdayOfOrdinal` on the ordinal.
* Python exceptions are modelled with `Except`: `PyErr` covers the three
  exception classes the `input_error` decorator distinguishes.
* Strings are treated as sequences of ASCII characters; Python `str.isdigit`
  also accepts some non-ASCII Unicode digits, which are outside this model.
* The source reads the current date with `datetime.today()`; the embedding
  passes `today` explicitly.
* Mutation of a record aliased inside the book is modelled by rewriting the
  first list entry with the matching name; every raise in the source happens
  before any mutation, so a caught exception leaves the book unchanged.
-/

instance {ε α : Type} [DecidableEq ε] [DecidableEq α] : DecidableEq (Except ε α) := fun
  | .error e, .error f => decidable_of_iff (e = f) (by simp)
  | .error _, .ok _ => isFalse (by simp)
  | .ok _, .error _ => isFalse (by simp)
  | .ok a, .ok b => decidable_of_iff (a = b) (by simp)

/-- A calendar date, as in Python `datetime.date` (year 1..9999). -/
structure Date where
  year : Nat
  month : Nat
  day : Nat
deriving DecidableEq

/-- Python `datetime`: a year is a leap year iff divisible by 4 and not by
100 unless by 400. -/
def isLeap (y : Nat) : Bool :=
  y % 4 == 0 && (y % 100 != 0 || y % 400 == 0)

/-- Length of a month (0 for an out-of-range month index). -/
def daysInMonth (y m : Nat) : Nat :=
  match m with
  | 1 => 31
  | 2 => if isLeap y then 29 else 28
  | 3 => 31
  | 4 => 30
  | 5 => 31
  | 6 => 30
  | 7 => 31
  | 8 => 31
  | 9 => 30
  | 10 => 31
  | 11 => 30
  | 12 => 31
  | _ => 0

/-- Days in year `y` that precede month `m`. -/
def daysBeforeMonth (y : Nat) : Nat → Nat
  | 0 => 0
  | m + 1 => daysBeforeMonth y m + daysInMonth y m

/-- Days before January 1st of year `y` (Python `_days_before_year`). -/
def daysBeforeYear (y : Nat) : Nat :=
  365 * (y - 1) + (y - 1) / 4 - (y - 1) / 100 + (y - 1) / 400

/-- Python `date.toordinal`: day count with `date(1,1,1)` mapping to 1. -/
def toOrdinal (d : Date) : Nat :=
  daysBeforeYear d.year + daysBeforeMonth d.year d.month + d.day

/-- `strftime "%A"` of the date with the given ordinal; ordinal 1 is a Monday. -/
def weekdayOfOrdinal (n : Int) : String :=
  match ((n - 1) % 7).toNat with
  | 0 => "Monday"
  | 1 => "Tuesday"
  | 2 => "Wednesday"
  | 3 => "Thursday"
  | 4 => "Friday"
  | 5 => "Saturday"
  | _ => "Sunday"

/-- Python `date` comparison: lexicographic on (year, month, day). -/
def dateLt (a b : Date) : Bool :=
  if a.year ≠ b.year then decide (a.year < b.year)
  else if a.month ≠ b.month then decide (a.month < b.month)
  else decide (a.day < b.day)

/-- The `datetime.date` constructor with its validation order and
`ValueError` messages. -/
def dateNew (y m d : Nat) : Except String Date :=
  if y < 1 || 9999 < y then
    .error ("year " ++ Nat.repr y ++ " is out of range")
  else if m < 1 || 12 < m then
    .error "month must be in 1..12"
  else if d < 1 || daysInMonth y m < d then
    .error "day is out of range for month"
  else
    .ok ⟨y, m, d⟩

/-- `date.replace(year=y)` as used at lines 119 and 122 of the source. -/
def replaceYear (bd : Date) (y : Nat) : Except String Date :=
  dateNew y bd.month bd.day

/-- A date that the `datetime.date` constructor accepts. -/
def validDate (d : Date) : Bool :=
  decide (1 ≤ d.year) && decide (d.year ≤ 9999) &&
  decide (1 ≤ d.month) && decide (d.month ≤ 12) &&
  decide (1 ≤ d.day) && decide (d.day ≤ daysInMonth d.year d.month)

/-- Digits of a decimal numeral, most significant first. -/
def strToNatGo : List Char → Nat → Option Nat
  | [], acc => some acc
  | c :: cs, acc =>
      if c.isDigit then strToNatGo cs (acc * 10 + (c.toNat - 48)) else none

/-- Parse a non-empty all-digit string as a natural number. -/
def strToNat (s : String) : Option Nat :=
  match s.data with
  | [] => none
  | cs => strToNatGo cs 0

/-- Splitting on a literal dot, as Python `"%d.%m.%Y"` field separation. -/
def splitOnDotGo : List Char → List Char → List String
  | [], cur => [String.mk cur.reverse]
  | c :: cs, cur =>
      if c == '.' then String.mk cur.reverse :: splitOnDotGo cs []
      else splitOnDotGo cs (c :: cur)

/-- Python `s.split(".")` (always returns at least one piece). -/
def splitOnDot (s : String) : List String :=
  splitOnDotGo s.data []

/-- `datetime.strptime(s, "%d.%m.%Y")` restricted to producing the parsed
date: numeric day, month, year fields that form a valid calendar date. -/
def parseDateDMY (s : String) : Option Date :=
  match splitOnDot s with
  | [ds, ms, ys] =>
      match strToNat ds, strToNat ms, strToNat ys with
      | some d, some m, some y =>
          match dateNew y m d with
          | .ok dt => some dt
          | .error _ => none
      | _, _, _ => none
  | _ => none

/-- Lines 119-122 of the source: this year's occurrence of the birthday,
rolled to next year when it is strictly before `today`. -/
def occurrenceOf (today bd : Date) : Except String Date := do
  let d0 ← replaceYear bd today.year
  if dateLt d0 today then replaceYear bd (today.year + 1) else pure d0

/-! ## Data model: `Phone`, `Birthday`, `Record`, `AddressBook` -/

/-- Python exceptions distinguished by the `input_error` decorator. -/
inductive PyErr where
  | valueError (msg : String)
  | keyError
  | indexError
deriving DecidableEq

/-- Python `str.isdigit`: non-empty and every character a digit (the
embedding covers the ASCII digits). -/
def str_isdigit (s : String) : Bool :=
  !(s.length == 0) && s.data.all Char.isDigit

/-- `Phone.__init__`: raises `ValueError` unless the value is an all-digit
string of length 10 (the `isinstance` check is vacuous for `String`). -/
def mkPhone (s : String) : Except PyErr String :=
  if !(str_isdigit s) || s.length != 10 then
    .error (.valueError "Invalid phone number format. Must be a string of 10 digits.")
  else
    .ok s

/-- The condition under which `Phone.__init__` succeeds. -/
def phoneValid (s : String) : Bool :=
  str_isdigit s && s.length == 10

/-- `Birthday.__init__`: raises `ValueError` unless the value parses with
`strptime "%d.%m.%Y"`; the stored value stays the raw string. -/
def mkBirthday (s : String) : Except PyErr String :=
  match parseDateDMY s with
  | some _ => .ok s
  | none => .error (.valueError "Invalid birthday format. Must be in the format DD.MM.YYYY.")

/-- The `Record` class: a name, a list of phone values, an optional
birthday string.  `edit_phone` writes raw strings into `phones`, so phone
entries are not necessarily validated values. -/
structure Record where
  name : String
  phones : List String
  birthday : Option String
deriving DecidableEq

/-- `Record.add_phone`: validates and appends. -/
def Record.add_phone (r : Record) (s : String) : Except PyErr Record :=
  match mkPhone s with
  | .ok p => .ok { r with phones := r.phones ++ [p] }
  | .error e => .error e

/-- `Record.edit_phone`: overwrites the value of every phone equal to
`old` with `newVal`, without validation. -/
def Record.edit_phone (r : Record) (old newVal : String) : Record :=
  { r with phones := r.phones.map (fun p => if p == old then newVal else p) }

/-- `Record.add_birthday`: validates and sets the birthday string. -/
def Record.add_birthday (r : Record) (s : String) : Except PyErr Record :=
  match mkBirthday s with
  | .ok b => .ok { r with birthday := some b }
  | .error e => .error e

/-- `Record.__str__`. -/
def recordStr (r : Record) : String :=
  "Contact name: " ++ r.name ++ ", phones: " ++ String.intercalate "; " r.phones ++
    ", birthday: " ++ (match r.birthday with | some b => b | none => "None")

/-- `AddressBook.data`: an insertion-ordered dict keyed by the record
name, modelled as the list of its records. -/
abbrev AddressBook := List Record

/-- Replace the first record carrying `name` (dict update at an existing
key, and the effect of mutating the record aliased under that key). -/
def updateFirst : AddressBook → String → Record → AddressBook
  | [], _, _ => []
  | b :: rest, name, r => if b.name == name then r :: rest else b :: updateFirst rest name r

/-- `AddressBook.add_record`: `data[record.name.value] = record`. -/
def add_record (book : AddressBook) (r : Record) : AddressBook :=
  if book.any (fun b => b.name == r.name) then updateFirst book r.name r else book ++ [r]

/-- `AddressBook.find`: `data.get(name)`. -/
def find (book : AddressBook) (name : String) : Option Record :=
  List.find? (fun b => b.name == name) book

/-! ## `get_birthdays_per_week` -/

/-- The `defaultdict(list)` of the weekly listing: weekday name to the
names appended under it, in key-insertion order. -/
abbrev Groups := List (String × List String)

/-- `birthdays_by_day[day].append(n)`: extends the entry of an existing
key, otherwise appends a fresh key at the end. -/
def addToGroup : Groups → String → String → Groups
  | [], day, n => [(day, [n])]
  | e :: rest, day, n =>
      if e.1 == day then (e.1, e.2 ++ [n]) :: rest else e :: addToGroup rest day n

/-- All names appended under key `k`. -/
def lookupGroup : Groups → String → List String
  | [], _ => []
  | e :: rest, k => (if e.1 == k then e.2 else []) ++ lookupGroup rest k

/-- Every name in the listing, over all weekday groups. -/
def groupNames : Groups → List String
  | [] => []
  | e :: rest => e.2 ++ groupNames rest

/-- Line 128-129 of the source: weekend occurrences are filed under
"Monday". -/
def dayKey (w : String) : String :=
  if w == "Saturday" || w == "Sunday" then "Monday" else w

/-- Lines 117-130 of the source, for one record: `none` when the record is
skipped, `some day` when its name is appended under `day`, `.error` when a
`ValueError` escapes (the `strptime`/`replace` calls).  The local
`delta_days` is written out at both of its uses. -/
def recordOutcome (today : Date) (r : Record) : Except String (Option String) :=
  match r.birthday with
  | none => .ok none
  | some bstr =>
      match parseDateDMY bstr with
      | none => .error ("time data \x27" ++ bstr ++ "\x27 does not match format \x27%d.%m.%Y\x27")
      | some bd =>
          match occurrenceOf today bd with
          | .error e => .error e
          | .ok occ =>
              if (toOrdinal occ : Int) - (toOrdinal today : Int) < 7 then
                .ok (some (dayKey (weekdayOfOrdinal ((toOrdinal today : Int) +
                  ((toOrdinal occ : Int) - (toOrdinal today : Int))))))
              else
                .ok none

/-- The record loop of `get_birthdays_per_week`. -/
def gbAux (today : Date) : List Record → Groups → Except String Groups
  | [], acc => .ok acc
  | r :: rs, acc =>
      match recordOutcome today r with
      | .error e => .error e
      | .ok none => gbAux today rs acc
      | .ok (some day) => gbAux today rs (addToGroup acc day r.name)

/-- `AddressBook.get_birthdays_per_week`, with `today` passed explicitly. -/
def get_birthdays_per_week (today : Date) (book : AddressBook) : Except String Groups :=
  gbAux today book []

/-! ## Command handlers and the dispatcher -/

/-- Python two-target unpacking `name, phone = args` with its
`ValueError` messages. -/
def unpack2 : List String → Except PyErr (String × String)
  | [a, b] => .ok (a, b)
  | args =>
      if args.length < 2 then
        .error (.valueError ("not enough values to unpack (expected 2, got " ++
          Nat.repr args.length ++ ")"))
      else
        .error (.valueError "too many values to unpack (expected 2)")

/-- `args[0]`, raising `IndexError` on an empty list. -/
def index0 : List String → Except PyErr String
  | [] => .error .indexError
  | a :: _ => .ok a

/-- The `input_error` decorator: `ValueError` becomes its message,
`KeyError` becomes "Contact not found.", `IndexError` becomes "Not enough
arguments provided.".  Every raise in a handler happens before the handler
mutates the book, so the book reverts to its pre-call state on error. -/
def input_error_wrap (book : AddressBook) :
    Except PyErr (String × AddressBook) → String × AddressBook
  | .ok r => r
  | .error (.valueError m) => (m, book)
  | .error .keyError => ("Contact not found.", book)
  | .error .indexError => ("Not enough arguments provided.", book)

/-- `add_contact` before decoration. -/
def add_contact (args : List String) (book : AddressBook) :
    Except PyErr (String × AddressBook) := do
  let (name, phone) ← unpack2 args
  let record ← Record.add_phone ⟨name, [], none⟩ phone
  pure ("Contact added.", add_record book record)

/-- `change_contact` before decoration: `record.phones[0]` raises
`IndexError` on a phoneless record, then `edit_phone` rewrites every phone
equal to the first one. -/
def change_contact (args : List String) (book : AddressBook) :
    Except PyErr (String × AddressBook) := do
  let (name, new_phone) ← unpack2 args
  match find book name with
  | some record =>
      match record.phones with
      | [] => .error .indexError
      | old :: _ =>
          pure ("Contact updated.", updateFirst book name (record.edit_phone old new_phone))
  | none => pure ("Contact " ++ name ++ " not found.", book)

/-- `show_phone` before decoration. -/
def show_phone (args : List String) (book : AddressBook) :
    Except PyErr (String × AddressBook) := do
  let name ← index0 args
  match find book name with
  | some record =>
      match record.phones with
      | [] => .error .indexError
      | p :: _ => pure (name ++ "\x27s phone number: " ++ p, book)
  | none => pure ("Contact " ++ name ++ " not found.", book)

/-- `show_all` before decoration. -/
def show_all (book : AddressBook) : Except PyErr (String × AddressBook) :=
  match book with
  | [] => .ok ("No contacts found.", book)
  | _ => .ok (String.trim ("All contacts:\n" ++
      String.join (book.map (fun r => recordStr r ++ "\n"))), book)

/-- `add_birthday` before decoration. -/
def add_birthday (args : List String) (book : AddressBook) :
    Except PyErr (String × AddressBook) := do
  let (name, birthday) ← unpack2 args
  match find book name with
  | some record => do
      let record2 ← Record.add_birthday record birthday
      pure ("Birthday added.", updateFirst book name record2)
  | none => pure ("Contact " ++ name ++ " not found.", book)

/-- `show_birthday` before decoration. -/
def show_birthday (args : List String) (book : AddressBook) :
    Except PyErr (String × AddressBook) := do
  let name ← index0 args
  match find book name with
  | some record =>
      match record.birthday with
      | some b => pure (name ++ "\x27s birthday: " ++ b, book)
      | none => pure (name ++ " has no birthday specified.", book)
  | none => pure ("Contact " ++ name ++ " not found.", book)

/-- `show_birthdays` before decoration; a `ValueError` escaping
`get_birthdays_per_week` carries its message. -/
def show_birthdays (today : Date) (book : AddressBook) :
    Except PyErr (String × AddressBook) :=
  match get_birthdays_per_week today book with
  | .error msg => .error (.valueError msg)
  | .ok [] => .ok ("No birthdays in the next week.", book)
  | .ok groups => .ok (String.trim ("Birthdays for the next week:\n" ++
      String.join (groups.map (fun e =>
        e.1 ++ ": " ++ String.intercalate ", " e.2 ++ "\n"))), book)

/-- The decorated handlers, as the dispatcher calls them. -/
def add_contact_wrapped (args : List String) (book : AddressBook) : String × AddressBook :=
  input_error_wrap book (add_contact args book)

def change_contact_wrapped (args : List String) (book : AddressBook) : String × AddressBook :=
  input_error_wrap book (change_contact args book)

def show_phone_wrapped (args : List String) (book : AddressBook) : String × AddressBook :=
  input_error_wrap book (show_phone args book)

def show_all_wrapped (book : AddressBook) : String × AddressBook :=
  input_error_wrap book (show_all book)

def add_birthday_wrapped (args : List String) (book : AddressBook) : String × AddressBook :=
  input_error_wrap book (add_birthday args book)

def show_birthday_wrapped (args : List String) (book : AddressBook) : String × AddressBook :=
  input_error_wrap book (show_birthday args book)

def show_birthdays_wrapped (today : Date) (book : AddressBook) : String × AddressBook :=
  input_error_wrap book (show_birthdays today book)

/-- Python `str.split()` on runs of whitespace, dropping empty pieces. -/
def pySplitGo : List Char → List Char → List String
  | [], [] => []
  | [], cur => [String.mk cur.reverse]
  | c :: cs, cur =>
      if c.isWhitespace then
        match cur with
        | [] => pySplitGo cs []
        | _ => String.mk cur.reverse :: pySplitGo cs []
      else pySplitGo cs (c :: cur)

def pySplit (s : String) : List String :=
  pySplitGo s.data []

/-- Python `str.lower` on ASCII letters. -/
def pyLower (s : String) : String :=
  String.mk (s.data.map Char.toLower)

/-- `parse_input`: `cmd, *args = user_input.split()` raises `ValueError`
on an empty token list; the command is lowercased (`strip` is a no-op on a
split token).  This call sits outside every `try` in the program. -/
def parse_input (s : String) : Except PyErr (String × List String) :=
  match pySplit s with
  | [] => .error (.valueError "not enough values to unpack (expected at least 1, got 0)")
  | c :: args => .ok (pyLower c, args)

/-! ### The `main` loop

Line 302 of the source reads `command, *args = parse_input(user_input)`.
`parse_input` returns the pair `(cmd, tokens)`, so the star-unpacking binds
`command := cmd` and `args := [tokens]`: a singleton list whose element is
the token list.  The handlers therefore receive a `List (List String)`, and
the embedding follows them at that argument type. -/

/-- Exceptions at the `main` level.  `TypeError` is raised by `dict.get`
on an unhashable list key and is not among the classes `input_error`
catches. -/
inductive PyExc where
  | valueError (msg : String)
  | keyError
  | indexError
  | typeError (msg : String)
deriving DecidableEq

def liftErr : PyErr → PyExc
  | .valueError m => .valueError m
  | .keyError => .keyError
  | .indexError => .indexError

/-- `name, x = args` on `main`'s wrapped argument list: `ValueError`
naming the length for fewer than two elements, the countless "too many"
message for more. -/
def unpack2_of_lists : List (List String) → Except PyExc (List String × List String)
  | [] => .error (.valueError "not enough values to unpack (expected 2, got 0)")
  | [_] => .error (.valueError "not enough values to unpack (expected 2, got 1)")
  | [a, b] => .ok (a, b)
  | _ => .error (.valueError "too many values to unpack (expected 2)")

/-- `args[0]` on `main`'s wrapped argument list. -/
def index0_of_lists : List (List String) → Except PyExc (List String)
  | [] => .error .indexError
  | a :: _ => .ok a

/-- `book.find(name)` where `name` is a token list: `data.get(name)` hashes
the key first, and a Python list is unhashable, so it always raises
`TypeError` and never yields a record. -/
def find_main (_book : AddressBook) (_key : List String) : Except PyExc Empty :=
  .error (.typeError "unhashable type: \x27list\x27")

/-- `add_contact` at the argument type `main` supplies: the two-target
unpacking fails on the singleton `args`; were `args` longer, `Record(name)`
would build an object and `record.add_phone(phone)` would construct
`Phone(phone)`, whose `isinstance(value, str)` test a token list fails.
Either way the book is untouched. -/
def add_contact_main (args : List (List String)) (_book : AddressBook) :
    Except PyExc (String × AddressBook) :=
  match unpack2_of_lists args with
  | .error e => .error e
  | .ok (_name, _phone) =>
      .error (.valueError "Invalid phone number format. Must be a string of 10 digits.")

/-- `change_contact` at the argument type `main` supplies: after the
unpacking, `book.find(name)` raises `TypeError` on the list key. -/
def change_contact_main (args : List (List String)) (book : AddressBook) :
    Except PyExc (String × AddressBook) :=
  match unpack2_of_lists args with
  | .error e => .error e
  | .ok (name, _new_phone) =>
      match find_main book name with
      | .error e => .error e
      | .ok e => nomatch e

/-- `show_phone` at the argument type `main` supplies: `args[0]` is the
token list and `book.find` raises `TypeError` on it. -/
def show_phone_main (args : List (List String)) (book : AddressBook) :
    Except PyExc (String × AddressBook) :=
  match index0_of_lists args with
  | .error e => .error e
  | .ok name =>
      match find_main book name with
      | .error e => .error e
      | .ok e => nomatch e

/-- `add_birthday` at the argument type `main` supplies. -/
def add_birthday_main (args : List (List String)) (book : AddressBook) :
    Except PyExc (String × AddressBook) :=
  match unpack2_of_lists args with
  | .error e => .error e
  | .ok (name, _birthday) =>
      match find_main book name with
      | .error e => .error e
      | .ok e => nomatch e

/-- `show_birthday` at the argument type `main` supplies. -/
def show_birthday_main (args : List (List String)) (book : AddressBook) :
    Except PyExc (String × AddressBook) :=
  match index0_of_lists args with
  | .error e => .error e
  | .ok name =>
      match find_main book name with
      | .error e => .error e
      | .ok e => nomatch e

/-- `show_all` takes only the book, so `main` calls it exactly as the
handler level does. -/
def show_all_main (book : AddressBook) : Except PyExc (String × AddressBook) :=
  match show_all book with
  | .ok r => .ok r
  | .error e => .error (liftErr e)

/-- `show_birthdays` takes only the book, so `main` calls it exactly as
the handler level does. -/
def show_birthdays_main (today : Date) (book : AddressBook) :
    Except PyExc (String × AddressBook) :=
  match show_birthdays today book with
  | .ok r => .ok r
  | .error e => .error (liftErr e)

/-- The `input_error` decorator at the `main` level: it catches only
`ValueError`, `KeyError` and `IndexError`; a `TypeError` propagates. -/
def input_error_main (book : AddressBook) :
    Except PyExc (String × AddressBook) → Except PyExc (String × AddressBook)
  | .ok r => .ok r
  | .error (.valueError m) => .ok (m, book)
  | .error .keyError => .ok ("Contact not found.", book)
  | .error .indexError => .ok ("Not enough arguments provided.", book)
  | .error (.typeError m) => .error (.typeError m)

/-- Shape a decorated handler result as a loop outcome that continues. -/
def as_step : Except PyExc (String × AddressBook) →
    Except PyExc (String × AddressBook × Bool)
  | .ok p => .ok (p.1, p.2, false)
  | .error e => .error e

/-- One iteration of the `main` loop on one input line: the printed reply,
the book after the command, and whether the loop breaks.  An uncaught
exception surfaces as `.error`.  Per line 302, every handler that takes
arguments is called on the wrapped singleton `[tokens]`. -/
def loop_step (today : Date) (line : String) (book : AddressBook) :
    Except PyExc (String × AddressBook × Bool) :=
  match parse_input line with
  | .error e => .error (liftErr e)
  | .ok (command, tokens) =>
      if command == "close" || command == "exit" then .ok ("Good bye!", book, true)
      else if command == "hello" then .ok ("How can I help you?", book, false)
      else if command == "add" then
        as_step (input_error_main book (add_contact_main [tokens] book))
      else if command == "change" then
        as_step (input_error_main book (change_contact_main [tokens] book))
      else if command == "phone" then
        as_step (input_error_main book (show_phone_main [tokens] book))
      else if command == "all" then
        as_step (input_error_main book (show_all_main book))
      else if command == "add-birthday" then
        as_step (input_error_main book (add_birthday_main [tokens] book))
      else if command == "show-birthday" then
        as_step (input_error_main book (show_birthday_main [tokens] book))
      else if command == "birthdays" then
        as_step (input_error_main book (show_birthdays_main today book))
      else .ok ("Invalid command.", book, false)

/-- Run the `main` loop over a list of input lines, collecting the
replies and the final book; stops at `close`/`exit`, and an uncaught
exception aborts the run. -/
def run_lines (today : Date) : List String → AddressBook → Except PyExc (List String × AddressBook)
  | [], book => .ok ([], book)
  | l :: ls, book =>
      match loop_step today l book with
      | .error e => .error e
      | .ok (out, book2, brk) =>
          if brk then .ok ([out], book2)
          else
            match run_lines today ls book2 with
            | .error e => .error e
            | .ok (outs, bookF) => .ok (out :: outs, bookF)

example : run_lines ⟨2024, 1, 1⟩ ["add John 1234567890", "change John abc"] [] =
    .ok (["not enough values to unpack (expected 2, got 1)",
      "not enough values to unpack (expected 2, got 1)"], []) := by decide

example : run_lines ⟨2024, 1, 1⟩ ["add John 1234567890", "phone John"] [] =
    .error (.typeError "unhashable type: \x27list\x27") := by decide

example : run_lines ⟨2024, 1, 1⟩ ["hello", "birthdays", "all", "exit"] [] =
    .ok (["How can I help you?", "No birthdays in the next week.",
      "No contacts found.", "Good bye!"], []) := by decide

example : loop_step ⟨2024, 1, 1⟩ "" [] =
    .error (.valueError "not enough values to unpack (expected at least 1, got 0)") := by decide

example : (add_contact_wrapped ["John"] []).1 =
    "not enough values to unpack (expected 2, got 1)" := by decide

example : (show_phone_wrapped ["Unknown"] []).1 = "Contact Unknown not found." := by decide

example : get_birthdays_per_week ⟨2024, 12, 31⟩ [⟨"John", ["1234567890"], some "01.01.1990"⟩] =
    .ok [("Wednesday", ["John"])] := by decide

example : get_birthdays_per_week ⟨2025, 10, 6⟩ [⟨"Sam", ["1234567890"], some "11.10.1990"⟩] =
    .ok [("Monday", ["Sam"])] := by decide

example : show_birthdays_wrapped ⟨2025, 3, 1⟩ [⟨"John", ["1234567890"], some "29.02.2024"⟩] =
    ("day is out of range for month", [⟨"John", ["1234567890"], some "29.02.2024"⟩]) := by decide

/-! ## Basic lemmas about the store -/

theorem exBind_ok {ε α β : Type} (a : α) (f : α → Except ε β) :
    (Except.ok a >>= f) = f a := rfl

theorem exBind_error {ε α β : Type} (e : ε) (f : α → Except ε β) :
    ((Except.error e : Except ε α) >>= f) = Except.error e := rfl

theorem exMap_ok {ε α β : Type} (a : α) (f : α → β) :
    (f <$> (Except.ok a : Except ε α)) = Except.ok (f a) := rfl

theorem exMap_error {ε α β : Type} (e : ε) (f : α → β) :
    (f <$> (Except.error e : Except ε α)) = (Except.error e : Except ε β) := rfl

theorem exPure {ε α : Type} (a : α) : (pure a : Except ε α) = Except.ok a := rfl

theorem find_eq_some_name (book : AddressBook) (name : String) (r : Record)
    (hf : find book name = some r) : r.name = name := by
  have h := List.find?_some hf
  exact eq_of_beq h

theorem find_updateFirst (book : AddressBook) (name : String) (r r2 : Record)
    (hf : find book name = some r) (hn : r2.name = name) :
    find (updateFirst book name r2) name = some r2 := by
  induction book with
  | nil => simp [find, List.find?] at hf
  | cons b rest ih =>
      by_cases hb : (b.name == name) = true
      · simp only [updateFirst, hb, if_pos]
        simp [find, List.find?, hn]
      · simp only [updateFirst, hb, if_neg, Bool.not_eq_true]
        simp only [find, List.find?, hb] at hf ⊢
        exact ih hf

/-! ## Claim theorems: validation and dispatcher error paths -/

/-- Claim C3: constructing a `Phone` succeeds exactly on 10-character
all-digit strings, and otherwise fails with the validation `ValueError`. -/
theorem phone_validation_iff (s : String) :
    (mkPhone s = .ok s ↔ (s.length = 10 ∧ ∀ c ∈ s.data, c.isDigit = true)) ∧
    (mkPhone s =
        .error (.valueError "Invalid phone number format. Must be a string of 10 digits.") ↔
      ¬(s.length = 10 ∧ ∀ c ∈ s.data, c.isDigit = true)) := by
  by_cases h : s.length = 10 ∧ ∀ c ∈ s.data, c.isDigit = true
  · have hdig : s.data.all Char.isDigit = true := List.all_eq_true.mpr h.2
    have hlen0 : (s.length == 0) = false := by simp [h.1]
    have hlen10 : (s.length == 10) = true := by simp [h.1]
    have hok : mkPhone s = .ok s := by
      simp [mkPhone, str_isdigit, hdig, hlen0, hlen10, bne]
    exact ⟨by rw [hok]; exact iff_of_true rfl h,
      by rw [hok]; exact iff_of_false (by simp) (not_not_intro h)⟩
  · have hcond : (!(str_isdigit s) || s.length != 10) = true := by
      rcases not_and_or.mp h with hl | hd
      · simp [bne, hl]
      · have hfalse : s.data.all Char.isDigit = false := by
          rcases (by simpa using hd : ∃ c ∈ s.data, ¬c.isDigit = true) with ⟨c, hmem, hc⟩
          exact List.all_eq_false.mpr ⟨c, hmem, by simpa using hc⟩
        simp [str_isdigit, hfalse]
    have herr : mkPhone s =
        .error (.valueError "Invalid phone number format. Must be a string of 10 digits.") := by
      simp [mkPhone, hcond]
    exact ⟨by simp [herr, h], by simp [herr, h]⟩

/-- Claim C9: when the phone argument fails validation, `add_contact`
raises before touching the book, so the decorated handler returns the
validation message and the book is exactly the input book. -/
theorem add_contact_invalid_phone_leaves_book (book : AddressBook) (name phone : String)
    (h : phoneValid phone = false) :
    add_contact_wrapped [name, phone] book =
      ("Invalid phone number format. Must be a string of 10 digits.", book) := by
  have hcond : (!(str_isdigit phone) || phone.length != 10) = true := by
    have := h
    unfold phoneValid at this
    rcases Bool.and_eq_false_iff.mp this with hl | hr
    · simp [hl]
    · simp [bne, hr]
  have hm : mkPhone phone =
      .error (.valueError "Invalid phone number format. Must be a string of 10 digits.") := by
    simp [mkPhone, hcond]
  simp [add_contact_wrapped, add_contact, unpack2, Record.add_phone, hm,
    input_error_wrap, exBind_ok, exBind_error, exMap_ok, exMap_error, exPure]

/-- Witness for C9 at a concrete bad phone. -/
theorem add_contact_invalid_phone_leaves_book_witness :
    phoneValid "abc" = false ∧
    add_contact_wrapped ["John", "abc"] ([⟨"Ann", ["0000000000"], none⟩] : AddressBook) =
      ("Invalid phone number format. Must be a string of 10 digits.",
        [⟨"Ann", ["0000000000"], none⟩]) :=
  ⟨by decide, add_contact_invalid_phone_leaves_book _ "John" "abc" (by decide)⟩

/-- Counterexample to claim C6 as stated: the reply for an unknown name
carries the name, it is not the fixed string "Contact not found.". -/
theorem absent_name_reply_cex :
    (show_phone_wrapped ["Unknown"] ([] : AddressBook)).1 = "Contact Unknown not found." ∧
    "Contact Unknown not found." ≠ "Contact not found." :=
  ⟨by decide, by decide⟩

/-- Claim C6 (amended): commands naming an absent contact reply
"Contact <name> not found." (the handlers test `find`, which returns
`None` rather than raising `KeyError`). -/
theorem absent_name_reply (book : AddressBook) (name x : String)
    (h : find book name = none) :
    (show_phone_wrapped [name] book).1 = "Contact " ++ name ++ " not found." ∧
    (change_contact_wrapped [name, x] book).1 = "Contact " ++ name ++ " not found." ∧
    (add_birthday_wrapped [name, x] book).1 = "Contact " ++ name ++ " not found." := by
  refine ⟨?_, ?_, ?_⟩
  · simp [show_phone_wrapped, show_phone, index0, h, input_error_wrap,
      exBind_ok, exPure]
  · simp [change_contact_wrapped, change_contact, unpack2, h, input_error_wrap,
      exBind_ok, exPure]
  · simp [add_birthday_wrapped, add_birthday, unpack2, h, input_error_wrap,
      exBind_ok, exPure]

/-- Witness for the amended C6 at a concrete absent name. -/
theorem absent_name_reply_witness :
    find ([⟨"Ann", ["0000000000"], none⟩] : AddressBook) "Unknown" = none ∧
    (show_phone_wrapped ["Unknown"] ([⟨"Ann", ["0000000000"], none⟩] : AddressBook)).1 =
      "Contact Unknown not found." :=
  ⟨by decide,
    ((absent_name_reply [⟨"Ann", ["0000000000"], none⟩] "Unknown" "1234567890"
      (by decide)).1).trans (by decide)⟩

/-- Counterexample to claim C7 as stated: `add` with one argument replies
with the Python unpacking `ValueError` message, not the `IndexError`
message "Not enough arguments provided.". -/
theorem few_args_cex :
    (add_contact_wrapped ["John"] ([] : AddressBook)).1 =
      "not enough values to unpack (expected 2, got 1)" ∧
    "not enough values to unpack (expected 2, got 1)" ≠ "Not enough arguments provided." :=
  ⟨by decide, by decide⟩

/-- Claim C7 (amended): handlers that index `args[0]` (`phone`,
`show-birthday`) reply "Not enough arguments provided." when called with no
arguments, while handlers that unpack two arguments (`add`, `change`,
`add-birthday`) reply with the unpacking `ValueError` message when given
fewer than two. -/
theorem few_args_messages (book : AddressBook) (args : List String) (h : args.length < 2) :
    (show_phone_wrapped [] book).1 = "Not enough arguments provided." ∧
    (show_birthday_wrapped [] book).1 = "Not enough arguments provided." ∧
    (add_contact_wrapped args book).1 =
      "not enough values to unpack (expected 2, got " ++ Nat.repr args.length ++ ")" ∧
    (change_contact_wrapped args book).1 =
      "not enough values to unpack (expected 2, got " ++ Nat.repr args.length ++ ")" ∧
    (add_birthday_wrapped args book).1 =
      "not enough values to unpack (expected 2, got " ++ Nat.repr args.length ++ ")" := by
  obtain _ | ⟨a, _ | ⟨b, t⟩⟩ := args
  · exact ⟨rfl, rfl, rfl, rfl, rfl⟩
  · exact ⟨rfl, rfl, rfl, rfl, rfl⟩
  · simp only [List.length_cons] at h
    omega

/-- Witness for the amended C7 at a concrete one-argument call. -/
theorem few_args_messages_witness :
    (["John"] : List String).length < 2 ∧
    (add_contact_wrapped ["John"] ([] : AddressBook)).1 =
      "not enough values to unpack (expected 2, got 1)" :=
  ⟨by decide, ((few_args_messages ([] : AddressBook) ["John"] (by decide)).2.2.1).trans
    (by decide)⟩

theorem add_contact_main_singleton (t : List String) (book : AddressBook) :
    add_contact_main [t] book =
      .error (.valueError "not enough values to unpack (expected 2, got 1)") := rfl

theorem change_contact_main_singleton (t : List String) (book : AddressBook) :
    change_contact_main [t] book =
      .error (.valueError "not enough values to unpack (expected 2, got 1)") := rfl

theorem add_birthday_main_singleton (t : List String) (book : AddressBook) :
    add_birthday_main [t] book =
      .error (.valueError "not enough values to unpack (expected 2, got 1)") := rfl

theorem show_phone_main_singleton (t : List String) (book : AddressBook) :
    show_phone_main [t] book = .error (.typeError "unhashable type: \x27list\x27") := rfl

theorem show_birthday_main_singleton (t : List String) (book : AddressBook) :
    show_birthday_main [t] book = .error (.typeError "unhashable type: \x27list\x27") := rfl

theorem show_all_main_step (book : AddressBook) :
    ∃ s, as_step (input_error_main book (show_all_main book)) = .ok (s, book, false) := by
  cases book <;> exact ⟨_, rfl⟩

theorem show_birthdays_main_step (today : Date) (book : AddressBook) :
    ∃ s, as_step (input_error_main book (show_birthdays_main today book)) =
      .ok (s, book, false) := by
  unfold show_birthdays_main show_birthdays
  cases h : get_birthdays_per_week today book with
  | error m => exact ⟨m, rfl⟩
  | ok g => cases g with
    | nil => exact ⟨_, rfl⟩
    | cons e rest => exact ⟨_, rfl⟩

/-- Counterexample to claim C8 as stated: a whitespace-only input line
raises a `ValueError` in `parse_input` outside every handler, and
`phone John` raises a `TypeError` inside the handler (`dict.get` on the
wrapped token list) that `input_error` does not catch; both escape the
loop. -/
theorem uncaught_errors_cex :
    loop_step ⟨2024, 1, 1⟩ " " ([] : AddressBook) =
      .error (.valueError "not enough values to unpack (expected at least 1, got 0)") ∧
    loop_step ⟨2024, 1, 1⟩ "phone John" ([] : AddressBook) =
      .error (.typeError "unhashable type: \x27list\x27") :=
  ⟨by decide, by decide⟩

/-- Claim C8 (amended): an empty or whitespace-only line raises an uncaught
`ValueError` in `parse_input`; a line whose command is `phone` or
`show-birthday` raises an uncaught `TypeError`, because `main` hands the
handler the wrapped token list and `dict.get` rejects a list key; every
other line completes the iteration with a one-line reply. -/
theorem loop_step_uncaught (today : Date) (line : String) (book : AddressBook) :
    (pySplit line = [] →
      loop_step today line book =
        .error (.valueError "not enough values to unpack (expected at least 1, got 0)")) ∧
    (∀ c rest, pySplit line = c :: rest →
      ((pyLower c = "phone" ∨ pyLower c = "show-birthday") →
        loop_step today line book = .error (.typeError "unhashable type: \x27list\x27")) ∧
      (¬(pyLower c = "phone" ∨ pyLower c = "show-birthday") →
        ∃ out, loop_step today line book = .ok out)) := by
  constructor
  · intro hsplit
    simp [loop_step, parse_input, hsplit, liftErr]
  · intro c rest hsp
    constructor
    · rintro (hc | hc) <;>
        simp [loop_step, parse_input, hsp, hc, show_phone_main, show_birthday_main,
          index0_of_lists, find_main, input_error_main, as_step]
    · intro hc
      have hc1 : ¬(pyLower c = "phone") := fun h => hc (Or.inl h)
      have hc2 : ¬(pyLower c = "show-birthday") := fun h => hc (Or.inr h)
      obtain ⟨s1, hs1⟩ := show_all_main_step book
      obtain ⟨s2, hs2⟩ := show_birthdays_main_step today book
      simp only [loop_step, parse_input, hsp, add_contact_main_singleton,
        change_contact_main_singleton, add_birthday_main_singleton,
        show_phone_main_singleton, show_birthday_main_singleton, hs1, hs2]
      simp only [input_error_main, as_step]
      repeat' first
        | exact ⟨_, rfl⟩
        | exact absurd (eq_of_beq (by assumption)) hc1
        | exact absurd (eq_of_beq (by assumption)) hc2
        | split

/-- Witness for the amended C8: `phone John` crashes with the uncaught
`TypeError`, while `hello` completes normally. -/
theorem loop_step_uncaught_witness :
    loop_step ⟨2024, 1, 1⟩ "phone John" ([] : AddressBook) =
      .error (.typeError "unhashable type: \x27list\x27") ∧
    (∃ out, loop_step ⟨2024, 1, 1⟩ "hello" ([] : AddressBook) = .ok out) :=
  ⟨((loop_step_uncaught ⟨2024, 1, 1⟩ "phone John" []).2 "phone" ["John"]
      (by decide)).1 (Or.inl (by decide)),
    ((loop_step_uncaught ⟨2024, 1, 1⟩ "hello" []).2 "hello" []
      (by decide)).2 (by decide)⟩

theorem loop_step_preserves_book (today : Date) (line : String) (book : AddressBook)
    (out : String × AddressBook × Bool) (h : loop_step today line book = .ok out) :
    out.2.1 = book := by
  unfold loop_step at h
  cases hpi : parse_input line with
  | error e =>
      simp only [hpi] at h
      exact Except.noConfusion h
  | ok pr =>
      obtain ⟨command, tokens⟩ := pr
      simp only [hpi] at h
      obtain ⟨s1, hs1⟩ := show_all_main_step book
      obtain ⟨s2, hs2⟩ := show_birthdays_main_step today book
      simp only [add_contact_main_singleton, change_contact_main_singleton,
        add_birthday_main_singleton, show_phone_main_singleton,
        show_birthday_main_singleton, hs1, hs2] at h
      simp only [input_error_main, as_step] at h
      repeat' first
        | (injection h with h2
           rw [← h2])
        | exact Except.noConfusion h
        | split at h

theorem run_lines_preserves_book (today : Date) (lines : List String) :
    ∀ (book : AddressBook) (outs : List String) (bookF : AddressBook),
      run_lines today lines book = .ok (outs, bookF) → bookF = book := by
  induction lines with
  | nil =>
      intro book outs bookF h
      simp only [run_lines, Except.ok.injEq, Prod.mk.injEq] at h
      exact h.2.symm
  | cons l ls ih =>
      intro book outs bookF h
      unfold run_lines at h
      cases hls : loop_step today l book with
      | error e =>
          simp only [hls] at h
          exact Except.noConfusion h
      | ok o =>
          obtain ⟨out, book2, brk⟩ := o
          have hb2 : book2 = book :=
            loop_step_preserves_book today l book (out, book2, brk) hls
          simp only [hls] at h
          by_cases hbrk : brk = true
          · rw [if_pos hbrk] at h
            simp only [Except.ok.injEq, Prod.mk.injEq] at h
            rw [← h.2]
            exact hb2
          · rw [if_neg hbrk] at h
            cases hrest : run_lines today ls book2 with
            | error e =>
                simp only [hrest] at h
                exact Except.noConfusion h
            | ok p =>
                obtain ⟨outs2, bookF2⟩ := p
                simp only [hrest, Except.ok.injEq, Prod.mk.injEq] at h
                rw [← h.2, ih book2 outs2 bookF2 hrest]
                exact hb2

/-- Claim C4: along every dispatcher command sequence from the empty store,
every stored phone value is a 10-digit string.  The argument wrapping at
line 302 means no dispatcher command can ever store anything (`add` and
`change` always fail to unpack their arguments), so the store stays empty
and the invariant holds. -/
theorem dispatcher_phone_invariant (today : Date) (lines : List String)
    (outs : List String) (bookF : AddressBook)
    (h : run_lines today lines [] = .ok (outs, bookF)) :
    bookF = [] ∧ ∀ r ∈ bookF, ∀ p ∈ r.phones, phoneValid p = true := by
  have hb : bookF = [] := run_lines_preserves_book today lines [] outs bookF h
  subst hb
  exact ⟨rfl, by simp⟩

/-- Witness for C4: the claimed failing sequence `add John 1234567890`,
`change John abc` leaves the store empty (both commands fail to unpack),
so the invariant holds there. -/
theorem dispatcher_phone_invariant_witness :
    run_lines ⟨2024, 1, 1⟩ ["add John 1234567890", "change John abc"] [] =
      .ok (["not enough values to unpack (expected 2, got 1)",
        "not enough values to unpack (expected 2, got 1)"], []) ∧
    (∀ r ∈ ([] : AddressBook), ∀ p ∈ r.phones, phoneValid p = true) :=
  ⟨by decide,
    (dispatcher_phone_invariant ⟨2024, 1, 1⟩ ["add John 1234567890", "change John abc"]
      ["not enough values to unpack (expected 2, got 1)",
        "not enough values to unpack (expected 2, got 1)"] [] (by decide)).2⟩

/-- Counterexample to claim C5 as stated: with duplicate copies of the
first phone, `change` rewrites every copy, not only the first entry. -/
theorem change_rewrites_duplicate_phones :
    change_contact_wrapped ["John", "3333333333"]
        ([⟨"John", ["1111111111", "1111111111", "2222222222"], none⟩] : AddressBook) =
      ("Contact updated.", [⟨"John", ["3333333333", "3333333333", "2222222222"], none⟩]) ∧
    (["3333333333", "3333333333", "2222222222"] : List String) ≠
      ["3333333333", "1111111111", "2222222222"] :=
  ⟨by decide, by decide⟩

/-- Claim C5 (amended): for an existing contact, `change` rewrites every
stored phone equal to the first phone's value (so exactly the first when no
duplicate of it exists) and replies "Contact updated."; for a contact with
no phones, `record.phones[0]` raises `IndexError` and the reply is
"Not enough arguments provided." with the book unchanged. -/
theorem change_existing_contact (book : AddressBook) (name newPhone : String) (r : Record)
    (hf : find book name = some r) :
    (r.phones = [] → change_contact_wrapped [name, newPhone] book =
      ("Not enough arguments provided.", book)) ∧
    (∀ old rest, r.phones = old :: rest →
      (change_contact_wrapped [name, newPhone] book).1 = "Contact updated." ∧
      find (change_contact_wrapped [name, newPhone] book).2 name =
        some { r with phones := (old :: rest).map (fun p => if p == old then newPhone else p) }) := by
  constructor
  · intro h0
    simp [change_contact_wrapped, change_contact, unpack2, hf, h0,
      input_error_wrap, exBind_ok, exPure]
  · intro old rest hp
    have hres : change_contact [name, newPhone] book =
        .ok ("Contact updated.", updateFirst book name (r.edit_phone old newPhone)) := by
      simp [change_contact, unpack2, hf, hp, exBind_ok, exPure, Record.edit_phone]
    have hw : change_contact_wrapped [name, newPhone] book =
        ("Contact updated.", updateFirst book name (r.edit_phone old newPhone)) := by
      simp [change_contact_wrapped, hres, input_error_wrap]
    refine ⟨by simp [hw], ?_⟩
    have hn2 : (r.edit_phone old newPhone).name = name := by
      simpa [Record.edit_phone] using find_eq_some_name book name r hf
    have := find_updateFirst book name r (r.edit_phone old newPhone) hf hn2
    simp only [hw]
    simpa [Record.edit_phone, hp] using this

/-- Witness for the amended C5 on the duplicate-phone book. -/
theorem change_existing_contact_witness :
    (change_contact_wrapped ["John", "3333333333"]
        ([⟨"John", ["1111111111", "1111111111", "2222222222"], none⟩] : AddressBook)).1 =
      "Contact updated." ∧
    find (change_contact_wrapped ["John", "3333333333"]
        ([⟨"John", ["1111111111", "1111111111", "2222222222"], none⟩] : AddressBook)).2
        "John" =
      some ⟨"John", ["3333333333", "3333333333", "2222222222"], none⟩ := by
  have h := (change_existing_contact
    ([⟨"John", ["1111111111", "1111111111", "2222222222"], none⟩] : AddressBook)
    "John" "3333333333" ⟨"John", ["1111111111", "1111111111", "2222222222"], none⟩
    (by decide)).2 "1111111111" ["1111111111", "2222222222"] rfl
  exact ⟨h.1, h.2.trans (by decide)⟩

/-! ## Calendar lemmas -/

theorem dateNew_ok (y m d : Nat) (dt : Date) (h : dateNew y m d = .ok dt) :
    dt = ⟨y, m, d⟩ ∧ 1 ≤ y ∧ y ≤ 9999 ∧ 1 ≤ m ∧ m ≤ 12 ∧ 1 ≤ d ∧ d ≤ daysInMonth y m := by
  unfold dateNew at h
  split_ifs at h with h1 h2 h3
  simp only [Bool.or_eq_true, decide_eq_true_eq, not_or] at h1 h2 h3
  injection h with h4
  subst h4
  exact ⟨rfl, by omega, by omega, by omega, by omega, by omega, by omega⟩

theorem daysBeforeMonth_le (y : Nat) (m1 m2 : Nat) (h : m1 < m2) :
    daysBeforeMonth y m1 + daysInMonth y m1 ≤ daysBeforeMonth y m2 := by
  induction m2 with
  | zero => omega
  | succ m ih =>
      rcases Nat.lt_succ_iff_lt_or_eq.mp h with h2 | h2
      · calc daysBeforeMonth y m1 + daysInMonth y m1 ≤ daysBeforeMonth y m := ih h2
          _ ≤ daysBeforeMonth y m + daysInMonth y m := Nat.le_add_right _ _
          _ = daysBeforeMonth y (m + 1) := rfl
      · subst h2
        exact Nat.le_of_eq rfl

theorem daysBeforeMonth_13 (y : Nat) :
    daysBeforeMonth y 13 = 365 + (if isLeap y then 1 else 0) := by
  cases h : isLeap y <;>
    simp [daysBeforeMonth, daysInMonth, h]

theorem dayOfYear_le (y m d : Nat) (hm : m ≤ 12) (hd : d ≤ daysInMonth y m) :
    daysBeforeMonth y m + d ≤ 365 + (if isLeap y then 1 else 0) := by
  have h1 : daysBeforeMonth y m + daysInMonth y m ≤ daysBeforeMonth y 13 :=
    daysBeforeMonth_le y m 13 (by omega)
  have h2 := daysBeforeMonth_13 y
  omega

set_option maxHeartbeats 1000000 in
theorem daysBeforeYear_succ (y : Nat) (hy : 1 ≤ y) :
    daysBeforeYear (y + 1) = daysBeforeYear y + 365 + (if isLeap y then 1 else 0) := by
  obtain ⟨n, rfl⟩ : ∃ n, y = n + 1 := ⟨y - 1, by omega⟩
  unfold daysBeforeYear
  simp only [Nat.add_sub_cancel]
  by_cases hl : isLeap (n + 1) = true
  · rw [if_pos hl]
    simp only [isLeap, Bool.and_eq_true, beq_iff_eq, Bool.or_eq_true, bne_iff_ne] at hl
    omega
  · rw [if_neg hl]
    simp only [isLeap, Bool.and_eq_true, beq_iff_eq, Bool.or_eq_true, bne_iff_ne,
      not_and, not_or] at hl
    omega

theorem validDate_bounds (d : Date) (hv : validDate d = true) :
    1 ≤ d.year ∧ d.year ≤ 9999 ∧ 1 ≤ d.month ∧ d.month ≤ 12 ∧
      1 ≤ d.day ∧ d.day ≤ daysInMonth d.year d.month := by
  simpa [validDate, Bool.and_eq_true, decide_eq_true_eq, and_assoc] using hv

/-- The selected occurrence never lies before `today`: rolling over happens
exactly when this year's occurrence is strictly in the past. -/
theorem occurrence_not_before (today bd occ : Date)
    (hv : validDate today = true)
    (ho : occurrenceOf today bd = .ok occ) :
    toOrdinal today ≤ toOrdinal occ := by
  obtain ⟨hy1, hy2, hm1, hm2, hd1, hd2⟩ := validDate_bounds today hv
  unfold occurrenceOf replaceYear at ho
  cases hd0 : dateNew today.year bd.month bd.day with
  | error e => rw [hd0, exBind_error] at ho; exact absurd ho (by simp)
  | ok d0 =>
      rw [hd0, exBind_ok] at ho
      obtain ⟨hdt, k1, k2, k3, k4, k5, k6⟩ := dateNew_ok _ _ _ _ hd0
      subst hdt
      by_cases hlt : dateLt ⟨today.year, bd.month, bd.day⟩ today = true
      · rw [if_pos hlt] at ho
        obtain ⟨hocc, l1, l2, l3, l4, l5, l6⟩ := dateNew_ok _ _ _ _ ho
        subst hocc
        have hday := dayOfYear_le today.year today.month today.day hm2 hd2
        have hsucc := daysBeforeYear_succ today.year hy1
        unfold toOrdinal
        simp only
        omega
      · rw [if_neg hlt, exPure] at ho
        injection ho with ho
        subst ho
        unfold toOrdinal
        simp only
        simp only [dateLt] at hlt
        rw [if_neg (by simp)] at hlt
        by_cases hm : ((⟨today.year, bd.month, bd.day⟩ : Date).month ≠ today.month)
        · rw [if_pos hm] at hlt
          simp only [decide_eq_true_eq] at hlt
          have hm2 : bd.month ≠ today.month := hm
          have hmono := daysBeforeMonth_le today.year today.month bd.month (by omega)
          omega
        · rw [if_neg hm] at hlt
          simp only [decide_eq_true_eq] at hlt
          have hm2 : bd.month = today.month := not_not.mp hm
          rw [hm2]
          omega

/-! ## Membership in the weekly listing -/

theorem mem_lookup_addToGroup (g : Groups) (day n x k : String) :
    x ∈ lookupGroup (addToGroup g day n) k ↔
      x ∈ lookupGroup g k ∨ (k = day ∧ x = n) := by
  induction g with
  | nil =>
      by_cases h : day = k
      · subst h
        simp [addToGroup, lookupGroup]
      · have h2 : ¬(k = day) := fun hc => h hc.symm
        simp [addToGroup, lookupGroup, beq_iff_eq, h, h2]
  | cons e rest ih =>
      by_cases h : e.1 = day
      · subst h
        simp only [addToGroup, beq_self_eq_true, if_true]
        by_cases h2 : e.1 = k
        · subst h2
          simp [lookupGroup, List.mem_append]
          tauto
        · have h3 : ¬(k = e.1) := fun hc => h2 hc.symm
          simp [lookupGroup, beq_iff_eq, h2, h3]
      · simp only [addToGroup, beq_iff_eq, h, if_false]
        by_cases h2 : e.1 = k
        · subst h2
          simp [lookupGroup, List.mem_append, ih]
          tauto
        · simp [lookupGroup, beq_iff_eq, h2, ih]

theorem mem_groupNames (g : Groups) (x : String) :
    x ∈ groupNames g ↔ ∃ k, x ∈ lookupGroup g k := by
  induction g with
  | nil => simp [groupNames, lookupGroup]
  | cons e rest ih =>
      simp only [groupNames, List.mem_append, ih]
      constructor
      · rintro (hx | ⟨k, hk⟩)
        · exact ⟨e.1, by simp [lookupGroup, hx]⟩
        · refine ⟨k, ?_⟩
          simp only [lookupGroup, List.mem_append]
          exact Or.inr hk
      · rintro ⟨k, hk⟩
        rcases List.mem_append.mp hk with h1 | h2
        · left
          by_cases he : (e.1 == k) = true
          · simpa [he] using h1
          · simp [he] at h1
        · exact Or.inr ⟨k, h2⟩

theorem gbAux_mem (today : Date) (rs : List Record) :
    ∀ (acc groups : Groups), gbAux today rs acc = .ok groups →
      ∀ x k, x ∈ lookupGroup groups k ↔
        x ∈ lookupGroup acc k ∨
          ∃ r ∈ rs, r.name = x ∧ recordOutcome today r = .ok (some k) := by
  induction rs with
  | nil =>
      intro acc groups h x k
      injection h with h
      subst h
      simp
  | cons r rest ih =>
      intro acc groups h x k
      unfold gbAux at h
      cases ho : recordOutcome today r with
      | error e => rw [ho] at h; exact absurd h (by simp)
      | ok o =>
          cases o with
          | none =>
              rw [ho] at h
              rw [ih acc groups h x k]
              simp [List.exists_mem_cons_iff, ho]
          | some day =>
              rw [ho] at h
              rw [ih (addToGroup acc day r.name) groups h x k, mem_lookup_addToGroup]
              simp only [List.exists_mem_cons_iff, ho, Except.ok.injEq, Option.some.injEq]
              constructor
              · rintro ((hacc | ⟨hk, hx⟩) | hrest)
                · exact Or.inl hacc
                · exact Or.inr (Or.inl ⟨hx.symm, hk.symm⟩)
                · exact Or.inr (Or.inr hrest)
              · rintro (hacc | (⟨hx, hk⟩ | hrest))
                · exact Or.inl (Or.inl hacc)
                · exact Or.inl (Or.inr ⟨hk.symm, hx.symm⟩)
                · exact Or.inr hrest

theorem nodup_name_unique (book : AddressBook) (hnd : (book.map Record.name).Nodup)
    (r1 r2 : Record) (h1 : r1 ∈ book) (h2 : r2 ∈ book) (hn : r1.name = r2.name) :
    r1 = r2 := by
  induction book with
  | nil => cases h1
  | cons b rest ih =>
      simp only [List.map_cons, List.nodup_cons] at hnd
      rcases List.mem_cons.mp h1 with rfl | g1 <;> rcases List.mem_cons.mp h2 with rfl | g2
      · rfl
      · have hmm : r2.name ∈ List.map Record.name rest := List.mem_map_of_mem Record.name g2
        rw [← hn] at hmm
        exact absurd hmm hnd.1
      · have hmm : r1.name ∈ List.map Record.name rest := List.mem_map_of_mem Record.name g1
        rw [hn] at hmm
        exact absurd hmm hnd.1
      · exact ih hnd.2 g1 g2

theorem recordOutcome_of_selected (today : Date) (r : Record) (bstr : String)
    (bd occ : Date) (hb : r.birthday = some bstr) (hp : parseDateDMY bstr = some bd)
    (ho : occurrenceOf today bd = .ok occ) :
    recordOutcome today r =
      if (toOrdinal occ : Int) - toOrdinal today < 7 then
        .ok (some (dayKey (weekdayOfOrdinal (toOrdinal occ))))
      else .ok none := by
  have harg : (toOrdinal today : Int) + ((toOrdinal occ : Int) - toOrdinal today) =
      (toOrdinal occ : Int) := by ring
  unfold recordOutcome
  simp only [hb, hp, ho, harg]

theorem recordOutcome_some_shape (today : Date) (r : Record) (k : String)
    (h : recordOutcome today r = .ok (some k)) : ∃ w, k = dayKey w := by
  unfold recordOutcome at h
  cases hb : r.birthday with
  | none => simp [hb] at h
  | some bstr =>
      simp only [hb] at h
      cases hp : parseDateDMY bstr with
      | none => simp [hp] at h
      | some bd =>
          simp only [hp] at h
          cases ho : occurrenceOf today bd with
          | error e => simp [ho] at h
          | ok occ =>
              simp only [ho] at h
              by_cases hlt : (toOrdinal occ : Int) - toOrdinal today < 7
              · rw [if_pos hlt] at h
                refine ⟨weekdayOfOrdinal ((toOrdinal today : Int) +
                  ((toOrdinal occ : Int) - toOrdinal today)), ?_⟩
                exact (Option.some.inj (Except.ok.inj h)).symm
              · rw [if_neg hlt] at h
                exact absurd h (by simp)

theorem dayKey_ne_sat_sun (w : String) :
    dayKey w ≠ "Saturday" ∧ dayKey w ≠ "Sunday" := by
  unfold dayKey
  by_cases h : (w == "Saturday" || w == "Sunday") = true
  · rw [if_pos h]
    exact ⟨by decide, by decide⟩
  · rw [if_neg h]
    simp only [Bool.or_eq_true, beq_iff_eq, not_or] at h
    exact ⟨h.1, h.2⟩

/-- Claim C1: for a contact whose birthday parses and whose occurrence for
`today` (this year's date, rolled to next year when already past) exists,
the contact appears in the weekly listing exactly when the day-delta from
`today` to that occurrence lies in [0,7); the delta is never negative. -/
theorem upcoming_window_membership (today : Date) (book : AddressBook) (r : Record)
    (bstr : String) (bd occ : Date) (groups : Groups)
    (hv : validDate today = true)
    (hnd : (book.map Record.name).Nodup)
    (hg : get_birthdays_per_week today book = .ok groups)
    (hr : r ∈ book)
    (hb : r.birthday = some bstr)
    (hp : parseDateDMY bstr = some bd)
    (ho : occurrenceOf today bd = .ok occ) :
    r.name ∈ groupNames groups ↔
      (0 ≤ (toOrdinal occ : Int) - toOrdinal today ∧
        (toOrdinal occ : Int) - toOrdinal today < 7) := by
  have h0 : (0 : Int) ≤ (toOrdinal occ : Int) - toOrdinal today := by
    have := occurrence_not_before today bd occ hv ho
    omega
  have hg2 : gbAux today book [] = .ok groups := hg
  have hmem := gbAux_mem today book [] groups hg2
  have hsel := recordOutcome_of_selected today r bstr bd occ hb hp ho
  constructor
  · intro hx
    rcases (mem_groupNames groups r.name).mp hx with ⟨k, hk⟩
    rcases (hmem r.name k).mp hk with hacc | ⟨r2, hr2, hname, hout⟩
    · simp [lookupGroup] at hacc
    · have hr2r : r2 = r := nodup_name_unique book hnd r2 r hr2 hr hname
      subst hr2r
      rw [hsel] at hout
      by_cases hlt : (toOrdinal occ : Int) - toOrdinal today < 7
      · exact ⟨h0, hlt⟩
      · rw [if_neg hlt] at hout
        exact absurd hout (by simp)
  · rintro ⟨_, hlt⟩
    have hout : recordOutcome today r =
        .ok (some (dayKey (weekdayOfOrdinal (toOrdinal occ)))) := by
      rw [hsel, if_pos hlt]
    exact (mem_groupNames groups r.name).mpr
      ⟨dayKey (weekdayOfOrdinal (toOrdinal occ)),
        (hmem r.name _).mpr (Or.inr ⟨r, hr, rfl, hout⟩)⟩

/-- Witness for C1: birthday 01.01.1990 with today = 31.12.2024 rolls over
to 01.01.2025, delta 1 day, and John is listed in the Wednesday group. -/
theorem upcoming_window_membership_witness :
    get_birthdays_per_week ⟨2024, 12, 31⟩ [⟨"John", ["1234567890"], some "01.01.1990"⟩] =
      .ok [("Wednesday", ["John"])] ∧
    (toOrdinal (⟨2025, 1, 1⟩ : Date) : Int) - toOrdinal (⟨2024, 12, 31⟩ : Date) = 1 ∧
    ((Record.name ⟨"John", ["1234567890"], some "01.01.1990"⟩) ∈
        groupNames [("Wednesday", ["John"])] ↔
      (0 ≤ (toOrdinal (⟨2025, 1, 1⟩ : Date) : Int) - toOrdinal (⟨2024, 12, 31⟩ : Date) ∧
        (toOrdinal (⟨2025, 1, 1⟩ : Date) : Int) - toOrdinal (⟨2024, 12, 31⟩ : Date) < 7)) :=
  ⟨by decide, by decide,
    upcoming_window_membership ⟨2024, 12, 31⟩ [⟨"John", ["1234567890"], some "01.01.1990"⟩]
      ⟨"John", ["1234567890"], some "01.01.1990"⟩ "01.01.1990" ⟨1990, 1, 1⟩ ⟨2025, 1, 1⟩
      [("Wednesday", ["John"])] (by decide) (by decide) (by decide)
      (List.mem_singleton.mpr rfl) rfl (by decide) (by decide)⟩

/-- Claim C2: no listing key is "Saturday" or "Sunday"; a selected contact
whose occurrence falls on Saturday or Sunday is listed under "Monday", and
one whose occurrence falls on a weekday is listed under that weekday's
name. -/
theorem weekend_grouping (today : Date) (book : AddressBook) (r : Record)
    (bstr : String) (bd occ : Date) (groups : Groups)
    (hg : get_birthdays_per_week today book = .ok groups)
    (hr : r ∈ book)
    (hb : r.birthday = some bstr)
    (hp : parseDateDMY bstr = some bd)
    (ho : occurrenceOf today bd = .ok occ)
    (hsel7 : (toOrdinal occ : Int) - toOrdinal today < 7) :
    lookupGroup groups "Saturday" = [] ∧
    lookupGroup groups "Sunday" = [] ∧
    ((weekdayOfOrdinal (toOrdinal occ) = "Saturday" ∨
        weekdayOfOrdinal (toOrdinal occ) = "Sunday") →
      r.name ∈ lookupGroup groups "Monday") ∧
    (¬(weekdayOfOrdinal (toOrdinal occ) = "Saturday" ∨
        weekdayOfOrdinal (toOrdinal occ) = "Sunday") →
      r.name ∈ lookupGroup groups (weekdayOfOrdinal (toOrdinal occ))) := by
  have hg2 : gbAux today book [] = .ok groups := hg
  have hmem := gbAux_mem today book [] groups hg2
  have hout : recordOutcome today r =
      .ok (some (dayKey (weekdayOfOrdinal (toOrdinal occ)))) := by
    rw [recordOutcome_of_selected today r bstr bd occ hb hp ho, if_pos hsel7]
  refine ⟨?_, ?_, ?_, ?_⟩
  · apply List.eq_nil_iff_forall_not_mem.mpr
    intro x hx
    rcases (hmem x "Saturday").mp hx with hacc | ⟨r2, _, _, hout2⟩
    · simp [lookupGroup] at hacc
    · rcases recordOutcome_some_shape today r2 _ hout2 with ⟨w, hw⟩
      exact (dayKey_ne_sat_sun w).1 hw.symm
  · apply List.eq_nil_iff_forall_not_mem.mpr
    intro x hx
    rcases (hmem x "Sunday").mp hx with hacc | ⟨r2, _, _, hout2⟩
    · simp [lookupGroup] at hacc
    · rcases recordOutcome_some_shape today r2 _ hout2 with ⟨w, hw⟩
      exact (dayKey_ne_sat_sun w).2 hw.symm
  · intro hws
    have hmon : dayKey (weekdayOfOrdinal (toOrdinal occ)) = "Monday" := by
      unfold dayKey
      rw [if_pos]
      rcases hws with hws | hws <;> simp [hws]
    rw [hmon] at hout
    exact (hmem r.name "Monday").mpr (Or.inr ⟨r, hr, rfl, hout⟩)
  · intro hws
    have hid : dayKey (weekdayOfOrdinal (toOrdinal occ)) =
        weekdayOfOrdinal (toOrdinal occ) := by
      unfold dayKey
      rw [if_neg]
      simp only [Bool.or_eq_true, beq_iff_eq]
      exact hws
    rw [hid] at hout
    exact (hmem r.name _).mpr (Or.inr ⟨r, hr, rfl, hout⟩)

/-- Witness for C2: birthday 11.10.1990 with today = 06.10.2025 falls on
Saturday 11.10.2025 (delta 5) and Sam is listed under "Monday". -/
theorem weekend_grouping_witness :
    weekdayOfOrdinal (toOrdinal (⟨2025, 10, 11⟩ : Date)) = "Saturday" ∧
    get_birthdays_per_week ⟨2025, 10, 6⟩ [⟨"Sam", ["1234567890"], some "11.10.1990"⟩] =
      .ok [("Monday", ["Sam"])] ∧
    (Record.name ⟨"Sam", ["1234567890"], some "11.10.1990"⟩) ∈
      lookupGroup [("Monday", ["Sam"])] "Monday" :=
  ⟨by decide, by decide,
    (weekend_grouping ⟨2025, 10, 6⟩ [⟨"Sam", ["1234567890"], some "11.10.1990"⟩]
      ⟨"Sam", ["1234567890"], some "11.10.1990"⟩ "11.10.1990" ⟨1990, 10, 11⟩
      ⟨2025, 10, 11⟩ [("Monday", ["Sam"])] (by decide)
      (List.mem_singleton.mpr rfl) rfl (by decide) (by decide) (by decide)).2.2.1
      (Or.inl (by decide))⟩

/-! ## The Feb-29 failure of `get_birthdays_per_week` -/

theorem parseDateDMY_month (s : String) (bd : Date) (h : parseDateDMY s = some bd) :
    1 ≤ bd.month ∧ bd.month ≤ 12 := by
  unfold parseDateDMY at h
  rcases hsp : splitOnDot s with _ | ⟨ds, _ | ⟨ms, _ | ⟨ys, _ | ⟨a4, t4⟩⟩⟩⟩ <;>
    simp only [hsp] at h <;> try simp at h
  rcases hd : strToNat ds with _ | d <;> simp only [hd] at h <;> try simp at h
  rcases hm : strToNat ms with _ | m <;> simp only [hm] at h <;> try simp at h
  rcases hy : strToNat ys with _ | y <;> simp only [hy] at h <;> try simp at h
  cases hdn : dateNew y m d with
  | error e => simp [hdn] at h
  | ok dt =>
      simp only [hdn, Option.some.injEq] at h
      subst h
      obtain ⟨hdt, _, _, hm1, hm2, _, _⟩ := dateNew_ok _ _ _ _ hdn
      subst hdt
      exact ⟨hm1, hm2⟩

theorem dateNew_error_day (y m d : Nat) (hy1 : 1 ≤ y) (hy2 : y ≤ 9999)
    (hm1 : 1 ≤ m) (hm2 : m ≤ 12) (e : String) (h : dateNew y m d = .error e) :
    e = "day is out of range for month" := by
  unfold dateNew at h
  rw [if_neg (by simp; omega), if_neg (by simp; omega)] at h
  by_cases hd : (decide (d < 1) || decide (daysInMonth y m < d)) = true
  · rw [if_pos hd] at h
    exact (Except.error.inj h).symm
  · rw [if_neg hd] at h
    exact absurd h (by simp)

theorem occurrenceOf_ok_or_day_error (today bd : Date)
    (hv : validDate today = true) (hy : today.year ≤ 9998)
    (hm1 : 1 ≤ bd.month) (hm2 : bd.month ≤ 12) :
    (∃ occ, occurrenceOf today bd = .ok occ) ∨
      occurrenceOf today bd = .error "day is out of range for month" := by
  obtain ⟨hy1, hy2, _, _, _, _⟩ := validDate_bounds today hv
  unfold occurrenceOf replaceYear
  cases hdn : dateNew today.year bd.month bd.day with
  | error e =>
      right
      rw [exBind_error]
      exact congrArg Except.error (dateNew_error_day _ _ _ hy1 hy2 hm1 hm2 e hdn)
  | ok d0 =>
      rw [exBind_ok]
      by_cases hlt : dateLt d0 today = true
      · rw [if_pos hlt]
        cases hdn2 : dateNew (today.year + 1) bd.month bd.day with
        | error e =>
            right
            exact congrArg Except.error
              (dateNew_error_day _ _ _ (by omega) (by omega) hm1 hm2 e hdn2)
        | ok occ => exact Or.inl ⟨occ, rfl⟩
      · rw [if_neg hlt, exPure]
        exact Or.inl ⟨d0, rfl⟩

theorem recordOutcome_ok_or_day_error (today : Date) (r : Record)
    (hv : validDate today = true) (hy : today.year ≤ 9998)
    (hparse : ∀ b, r.birthday = some b → (parseDateDMY b).isSome = true) :
    (∃ o, recordOutcome today r = .ok o) ∨
      recordOutcome today r = .error "day is out of range for month" := by
  unfold recordOutcome
  cases hb : r.birthday with
  | none => exact Or.inl ⟨none, rfl⟩
  | some bstr =>
      cases hp : parseDateDMY bstr with
      | none =>
          have := hparse bstr hb
          rw [hp] at this
          simp at this
      | some bd =>
          obtain ⟨hm1, hm2⟩ := parseDateDMY_month bstr bd hp
          simp only [hp]
          rcases occurrenceOf_ok_or_day_error today bd hv hy hm1 hm2 with ⟨occ, hocc⟩ | hocc
          · simp only [hocc]
            by_cases hc : (toOrdinal occ : Int) - toOrdinal today < 7
            · rw [if_pos hc]
              exact Or.inl ⟨_, rfl⟩
            · rw [if_neg hc]
              exact Or.inl ⟨none, rfl⟩
          · simp [hocc]

theorem gbAux_error (today : Date) (rs : List Record)
    (hall : ∀ r ∈ rs, (∃ o, recordOutcome today r = .ok o) ∨
      recordOutcome today r = .error "day is out of range for month")
    (hex : ∃ r ∈ rs, recordOutcome today r = .error "day is out of range for month") :
    ∀ acc, gbAux today rs acc = .error "day is out of range for month" := by
  induction rs with
  | nil => rcases hex with ⟨r, hr, _⟩; cases hr
  | cons r rest ih =>
      intro acc
      unfold gbAux
      rcases hall r (List.mem_cons_self r rest) with ⟨o, ho⟩ | ho
      · have hrest : ∃ r2 ∈ rest,
            recordOutcome today r2 = .error "day is out of range for month" := by
          rcases hex with ⟨r2, hr2, herr⟩
          rcases List.mem_cons.mp hr2 with rfl | hr2
          · rw [ho] at herr
            exact absurd herr (by simp)
          · exact ⟨r2, hr2, herr⟩
        cases o with
        | none =>
            rw [ho]
            exact ih (fun r2 h2 => hall r2 (List.mem_cons_of_mem r h2)) hrest acc
        | some day =>
            rw [ho]
            exact ih (fun r2 h2 => hall r2 (List.mem_cons_of_mem r h2)) hrest
              (addToGroup acc day r.name)
      · rw [ho]

/-- Claim C10: a stored Feb-29 birthday was accepted by the validator, but
when `today`'s year (or, after rollover, the next year) is not leap, the
`replace(year=...)` step raises `ValueError("day is out of range for
month")`, so `get_birthdays_per_week` fails and the `birthdays` command
replies with that error text instead of a listing. -/
theorem feb29_birthday_valueerror (today : Date) (book : AddressBook) (r : Record)
    (bstr : String) (bd : Date)
    (hv : validDate today = true) (hy : today.year ≤ 9998)
    (hparse : ∀ r2 ∈ book, ∀ b, r2.birthday = some b → (parseDateDMY b).isSome = true)
    (hr : r ∈ book) (hb : r.birthday = some bstr) (hp : parseDateDMY bstr = some bd)
    (hm : bd.month = 2) (hd : bd.day = 29)
    (hleap : isLeap today.year = false ∨
      (dateLt ⟨today.year, 2, 29⟩ today = true ∧ isLeap (today.year + 1) = false)) :
    get_birthdays_per_week today book = .error "day is out of range for month" ∧
    show_birthdays_wrapped today book = ("day is out of range for month", book) ∧
    mkBirthday bstr = .ok bstr := by
  obtain ⟨hy1, hy2, _, _, _, _⟩ := validDate_bounds today hv
  have hocc : occurrenceOf today bd = .error "day is out of range for month" := by
    unfold occurrenceOf replaceYear
    cases hly : isLeap today.year with
    | false =>
        have hdn : dateNew today.year bd.month bd.day =
            .error "day is out of range for month" := by
          unfold dateNew
          rw [hm, hd]
          rw [if_neg (by simp; omega), if_neg (by simp), if_pos (by simp [daysInMonth, hly])]
        rw [hdn, exBind_error]
    | true =>
        rcases hleap with hnl | ⟨hlt2, hnl2⟩
        · rw [hly] at hnl
          exact absurd hnl (by simp)
        · have hdn : dateNew today.year bd.month bd.day = .ok ⟨today.year, 2, 29⟩ := by
            unfold dateNew
            rw [hm, hd]
            rw [if_neg (by simp; omega), if_neg (by simp),
              if_neg (by simp [daysInMonth, hly])]
          have hdn2 : dateNew (today.year + 1) bd.month bd.day =
              .error "day is out of range for month" := by
            unfold dateNew
            rw [hm, hd]
            have hy1999 : ¬(today.year + 1 < 1 ∨ 9999 < today.year + 1) := by omega
            rw [if_neg (by simpa using hy1999), if_neg (by simp),
              if_pos (by simp [daysInMonth, hnl2])]
          rw [hdn, exBind_ok, if_pos hlt2, hdn2]
  have hout : recordOutcome today r = .error "day is out of range for month" := by
    unfold recordOutcome
    simp only [hb, hp, hocc]
  have hall : ∀ r2 ∈ book, (∃ o, recordOutcome today r2 = .ok o) ∨
      recordOutcome today r2 = .error "day is out of range for month" :=
    fun r2 h2 => recordOutcome_ok_or_day_error today r2 hv hy (hparse r2 h2)
  have hg : gbAux today book [] = .error "day is out of range for month" :=
    gbAux_error today book hall ⟨r, hr, hout⟩ []
  have hgw : get_birthdays_per_week today book = .error "day is out of range for month" := hg
  refine ⟨hgw, ?_, ?_⟩
  · simp [show_birthdays_wrapped, show_birthdays, hgw, input_error_wrap]
  · simp [mkBirthday, hp]

/-- Witness for C10: John's birthday 29.02.2024 was accepted, and for
today = 12.10.2025 (2025 is not leap) the `birthdays` reply is the raw
`ValueError` text. -/
theorem feb29_birthday_valueerror_witness :
    mkBirthday "29.02.2024" = .ok "29.02.2024" ∧
    get_birthdays_per_week ⟨2025, 10, 12⟩ [⟨"John", ["1234567890"], some "29.02.2024"⟩] =
      .error "day is out of range for month" ∧
    show_birthdays_wrapped ⟨2025, 10, 12⟩ [⟨"John", ["1234567890"], some "29.02.2024"⟩] =
      ("day is out of range for month", [⟨"John", ["1234567890"], some "29.02.2024"⟩]) := by
  have h := feb29_birthday_valueerror ⟨2025, 10, 12⟩
    [⟨"John", ["1234567890"], some "29.02.2024"⟩]
    ⟨"John", ["1234567890"], some "29.02.2024"⟩ "29.02.2024" ⟨2024, 2, 29⟩
    (by decide) (by decide) (by decide) (List.mem_singleton.mpr rfl) rfl (by decide)
    rfl rfl (Or.inl (by decide))
  exact ⟨h.2.2, h.1, h.2.1⟩

example : isLeap 2024 = true := by decide
example : isLeap 2025 = false := by decide
example : parseDateDMY "01.01.1990" = some ⟨1990, 1, 1⟩ := by decide
example : parseDateDMY "29.02.2024" = some ⟨2024, 2, 29⟩ := by decide
example : parseDateDMY "31.02.2024" = none := by decide
example : weekdayOfOrdinal (toOrdinal ⟨2025, 1, 1⟩) = "Wednesday" := by decide
example : weekdayOfOrdinal (toOrdinal ⟨2025, 10, 11⟩) = "Saturday" := by decide
example : occurrenceOf ⟨2024, 12, 31⟩ ⟨1990, 1, 1⟩ = .ok ⟨2025, 1, 1⟩ := by decide
example : occurrenceOf ⟨2025, 3, 1⟩ ⟨2024, 2, 29⟩ =
    .error "day is out of range for month" := by decide
